import Mathlib

/-!
Shallow embedding of `src/src/entities/uav_entities.py` (the entity layer of a
drone-network simulator): Event, Packet, Depot and Drone state, buffer
maintenance with feedback broadcasting, movement interpolation and the energy
ledger.  Python floats are modelled as rationals, runtime identifiers
(`id(self)`) as naturals supplied by the caller, and in-place mutation as
explicit state passing.
-/

/-- Coordinates on the map: Python float pairs, modelled as rationals. -/
abbrev Coords : Type := ℚ × ℚ

/-- Simulation parameters read from the ambient `simulator` object. -/
structure SimParams where
  event_duration : Int
  time_step_duration : ℚ
  routing_algorithm_name : String
  drones : List Nat
deriving DecidableEq

/-- Event data (`Event.__init__`): identifier is `id(self)`, coords and
creation time as given, `deadline = current_time + event_duration` unless
overridden (the override is kept as the stored field value). -/
structure Event where
  identifier : Nat
  coords : Coords
  current_time : Int
  deadline : Int
deriving DecidableEq

/-- Event-construction deadline default: `current_time + simulator.event_duration`
when no explicit deadline is passed. -/
def Event.default_deadline (current_time : Int) (sim : SimParams) : Int :=
  current_time + sim.event_duration

/-- The inherited `Entity.__eq__`: identity is decided by the identifier alone
(`other.identifier == self.identifier`). -/
def Event.py_eq (self other : Event) : Bool :=
  other.identifier == self.identifier

/-- The inherited `Entity.__hash__` hashes the pair `(self.identifier, self.coords)`;
this definition is the key that Python's `hash` is applied to. -/
def Event.py_hash_key (e : Event) : Nat × Coords :=
  (e.identifier, e.coords)

/-- `Event.is_expired(cur_step)`: `cur_step > self.deadline`. -/
def Event.is_expired (e : Event) (cur_step : Int) : Bool :=
  cur_step > e.deadline

/-- Packet state (`Packet.__init__`): the fields this layer uses.  `ttl` is the
name-mangled `__TTL`, starting at `-1`; `last_2_hops` stores drone identifiers;
`time_delivery` starts as `None`. -/
structure Packet where
  identifier : Nat
  event_ref : Event
  time_step_creation : Int
  ttl : Int
  last_2_hops : List Nat
  time_delivery : Option Int
deriving DecidableEq

/-- `Packet.__init__(time_step_creation, simulator, event_ref)`: fresh packet with
`__TTL = -1`, empty hop window and no delivery time; `pid` stands for `id(self)`. -/
def Packet.init (pid : Nat) (time_step_creation : Int) (event_ref : Event) : Packet :=
  Packet.mk pid event_ref time_step_creation (-1) [] none

/-- The inherited `Entity.__eq__` on packets. -/
def Packet.py_eq (self other : Packet) : Bool :=
  other.identifier == self.identifier

/-- The inherited `Entity.__hash__` key on packets: packet coords are the event's
coords (`super().__init__(id(self), event_ref_crafted.coords, simulator)`). -/
def Packet.py_hash_key (p : Packet) : Nat × Coords :=
  (p.identifier, p.event_ref.coords)

/-- `Packet.increase_TTL_hops`: `self.__TTL += 1`. -/
def Packet.increase_TTL_hops (p : Packet) : Packet :=
  { p with ttl := p.ttl + 1 }

/-- `Packet.add_hop(drone)`: when the hop window already holds two entries, drop
the oldest (`self.last_2_hops = self.last_2_hops[1:]`), append the new hop, then
`increase_TTL_hops`. -/
def Packet.add_hop (p : Packet) (drone_id : Nat) : Packet :=
  let hops := if p.last_2_hops.length == 2 then p.last_2_hops.drop 1 else p.last_2_hops
  Packet.increase_TTL_hops { p with last_2_hops := hops ++ [drone_id] }

/-- A sequence of `add_hop` calls, oldest first. -/
def Packet.add_hops (p : Packet) (hs : List Nat) : Packet :=
  hs.foldl Packet.add_hop p

/-- `Packet.is_expired(cur_step)`: delegates to the event deadline,
`cur_step > self.event_ref.deadline`. -/
def Packet.is_expired (p : Packet) (cur_step : Int) : Bool :=
  cur_step > p.event_ref.deadline

/-- `Event.as_packet(time_step_creation, drone)`: builds a `DataPacket` referencing
the event and immediately records the drone as first hop. -/
def Event.as_packet (e : Event) (time_step_creation : Int) (pid drone_id : Nat) : Packet :=
  (Packet.init pid time_step_creation e).add_hop drone_id

/-- Depot state (`Depot.__init__`): communication range and the permanent packet
log (`self.__buffer`, "also with duplicated packets"). -/
structure Depot where
  identifier : Nat
  coords : Coords
  communication_range : ℚ
  buffer : List Packet
deriving DecidableEq

/-- The inherited `Entity.__eq__` on depots. -/
def Depot.py_eq (self other : Depot) : Bool :=
  other.identifier == self.identifier

/-- The inherited `Entity.__hash__` key on depots. -/
def Depot.py_hash_key (d : Depot) : Nat × Coords :=
  (d.identifier, d.coords)

/-- Drone state: the fields of `Drone.__init__` that the entity layer reads or
writes.  `tightest_event_deadline` is `None`/`np.nan` modelled as `none`. -/
structure Drone where
  identifier : Nat
  coords : Coords
  speed : ℚ
  buffer_max_size : Nat
  residual_energy : ℚ
  initial_energy : ℚ
  accumulated_moving_energy : ℚ
  accumulated_hello_energy : ℚ
  accumulated_send_energy : ℚ
  tightest_event_deadline : Option Int
  buffer : List Packet
  distance_from_depot : ℚ
  move_routing : Bool
  come_back_to_mission : Bool
deriving DecidableEq

/-- The inherited `Entity.__eq__` on drones. -/
def Drone.py_eq (self other : Drone) : Bool :=
  other.identifier == self.identifier

/-- `Drone.__hash__` is overridden: `hash(self.identifier)` hashes the identifier
alone, so this key ignores the coords. -/
def Drone.py_hash_key (d : Drone) : Nat :=
  d.identifier

/-- `Drone.buffer_length()`: `len(self.__buffer)`. -/
def Drone.buffer_length (d : Drone) : Nat :=
  d.buffer.length

/-- `Drone.is_full()`: `self.buffer_length() == self.buffer_max_size`. -/
def Drone.is_full (d : Drone) : Bool :=
  d.buffer_length == d.buffer_max_size

/-- `Drone.is_known_packet(packet)`: scans the buffer for a packet whose
`event_ref` compares `__eq__`-equal (event-identifier equality) to the
candidate's. -/
def Drone.is_known_packet (d : Drone) (packet : Packet) : Bool :=
  d.buffer.any (fun pk => Event.py_eq pk.event_ref packet.event_ref)

/-- `Drone.accept_packets(packets)`: each candidate is appended to the buffer
unless `is_known_packet` already holds of the buffer built so far; no capacity
check is made. -/
def Drone.accept_packets (d : Drone) (packets : List Packet) : Drone :=
  packets.foldl
    (fun acc packet =>
      if !(acc.is_known_packet packet) then { acc with buffer := acc.buffer ++ [packet] }
      else acc)
    d

/-- `Drone.feel_event(cur_step)`: creates an Event at the drone's coords with the
default deadline, wraps it as a packet with this drone as first hop, and appends
it to the buffer iff the drone is neither diverting nor returning (else the
event only goes to the missed-events metric, reported here as `false`).
`ev_id` and `pk_id` stand for the two `id(self)` allocations. -/
def Drone.feel_event (d : Drone) (cur_step : Int) (sim : SimParams) (ev_id pk_id : Nat) :
    Drone × Bool :=
  let ev := Event.mk ev_id d.coords cur_step (Event.default_deadline cur_step sim)
  let pk := ev.as_packet cur_step pk_id d.identifier
  if !d.move_routing && !d.come_back_to_mission then
    ({ d with buffer := d.buffer ++ [pk] }, true)
  else
    (d, false)

/-- `Drone.decrease_energy(action)`: three recognised action strings; any other
string falls through all branches and changes nothing. -/
def Drone.decrease_energy (d : Drone) (action : String) : Drone :=
  if action = "transmission" then
    { d with residual_energy := d.residual_energy - 100,
             accumulated_send_energy := d.accumulated_send_energy + 100 }
  else if action = "move" then
    { d with residual_energy := d.residual_energy - d.speed * 100,
             accumulated_moving_energy := d.accumulated_moving_energy + d.speed * 100 }
  else if action = "hello" then
    { d with residual_energy := d.residual_energy - 10,
             accumulated_hello_energy := d.accumulated_hello_energy + 10 }
  else d

/-- Energy-ledger bookkeeping invariant: the energy drained from
`initial_energy` is exactly what the three accumulators account for. -/
def energy_ledger_ok (d : Drone) : Prop :=
  d.initial_energy - d.residual_energy =
    d.accumulated_send_energy + d.accumulated_moving_energy + d.accumulated_hello_energy

/-- `Drone.packet_is_expiring(cur_step)`: compares the travel time to the depot
with the time left to the tightest deadline using the chained comparison
`event_time_to_dead - 5 < time_to_depot <= event_time_to_dead`.  When
`tightest_event_deadline` is the NaN sentinel both comparisons are false in
Python, hence `false` here. -/
def Drone.packet_is_expiring (d : Drone) (sim : SimParams) (cur_step : Int) : Bool :=
  match d.tightest_event_deadline with
  | none => false
  | some tight =>
    let time_to_depot := d.distance_from_depot / d.speed
    let event_time_to_dead := ((tight : ℚ) - (cur_step : ℚ)) * sim.time_step_duration
    decide (event_time_to_dead - 5 < time_to_depot) && decide (time_to_depot ≤ event_time_to_dead)

/-- A feedback call made to one drone's routing strategy:
`drone.routing_algorithm.feedback(current_drone, id_event, delay, outcome, reward, None, None)`.
`recipient` is the drone whose strategy is called, `src_drone` the
`current_drone` argument. -/
structure Feedback where
  recipient : Nat
  src_drone : Nat
  id_event : Nat
  delay : Int
  outcome : Int
  reward : Int
deriving DecidableEq

/-- Python substring containment: `needle in haystack` for strings (the empty
string is contained in every string). -/
def isSubstrPy (needle : List Char) : List Char → Bool
  | [] => needle.isEmpty
  | c :: rest => needle.isPrefixOf (c :: rest) || isSubstrPy needle rest

/-- The guard `self.simulator.routing_algorithm.name not in "GEO" "RND" "GEOS"`:
the three adjacent string literals concatenate at parse time into the single
string below, and `in` between strings is the substring test, so the feedback
broadcast is skipped exactly when the algorithm name is a substring of that
concatenation. -/
def feedbackExempt (name : String) : Bool :=
  isSubstrPy name.data (("GEO" ++ "RND" ++ "GEOS" : String)).data

/-- The negative-feedback fan-out for one expired packet in `Drone.update_packets`:
for every drone of the simulator, `feedback(current_drone, pck.event_ref.identifier,
event_duration, -1, -100, None, None)`. -/
def expired_feedbacks (sim : SimParams) (self_id : Nat) (pck : Packet) : List Feedback :=
  sim.drones.map (fun dr =>
    Feedback.mk dr self_id pck.event_ref.identifier sim.event_duration (-1) (-100))

/-- The update `np.nanmin([tightest, deadline])`, with `none` standing for the
NaN sentinel. -/
def nanmin (a : Option Int) (b : Int) : Option Int :=
  match a with
  | none => some b
  | some x => some (min x b)

/-- Loop state of `Drone.update_packets`: the rebuilt buffer, the running
`tightest_event_deadline`, and the feedback calls issued so far. -/
structure ScanSt where
  tmp_buffer : List Packet
  tightest : Option Int
  feedbacks : List Feedback
deriving DecidableEq

/-- One iteration of the `for pck in self.__buffer` loop of `Drone.update_packets`:
a non-expired packet is appended to `tmp_buffer` and folded into the nanmin;
an expired one triggers the fan-out unless the algorithm name is exempted. -/
def update_step (sim : SimParams) (self_id : Nat) (cur_step : Int)
    (st : ScanSt) (pck : Packet) : ScanSt :=
  if !(pck.is_expired cur_step) then
    ScanSt.mk (st.tmp_buffer ++ [pck]) (nanmin st.tightest pck.event_ref.deadline) st.feedbacks
  else
    if !(feedbackExempt sim.routing_algorithm_name) then
      ScanSt.mk st.tmp_buffer st.tightest (st.feedbacks ++ expired_feedbacks sim self_id pck)
    else
      st

/-- `Drone.update_packets(cur_step)`: runs the loop starting from an empty
`tmp_buffer` and a NaN tightest deadline, installs the rebuilt buffer and the
new tightest deadline, and clears `move_routing` when the buffer came out
empty.  The second component is the list of feedback calls issued. -/
def Drone.update_packets (d : Drone) (sim : SimParams) (cur_step : Int) :
    Drone × List Feedback :=
  let st := d.buffer.foldl (update_step sim d.identifier cur_step) (ScanSt.mk [] none [])
  let d2 : Drone := { d with buffer := st.tmp_buffer, tightest_event_deadline := st.tightest }
  let d3 : Drone := if d2.buffer_length == 0 then { d2 with move_routing := false } else d2
  (d3, st.feedbacks)

/-- Result of `Depot.transfer_notified_packets`: the updated depot log, the
offloading drone's buffer as left by the call (the same packet objects, now
carrying their delivery stamp), the entries appended to the
`drones_packets_to_depot_list` metric, and the feedback calls issued.  Python
mutates the packets in place; this is the end-of-call view of those objects. -/
structure TransferResult where
  depot : Depot
  drone_buffer : List Packet
  delivered_entries : List (Packet × Int)
  feedbacks : List Feedback
deriving DecidableEq

/-- `Depot.transfer_notified_packets(current_drone, cur_step)`: appends every
packet of the drone's buffer to the depot log (`self.__buffer += packets_to_offload`,
duplicates kept), and for each packet optionally broadcasts positive feedback
(outcome `1`, reward `100`, delay `cur_step - event.current_time`) to every
drone, appends one `(pck, cur_step)` entry to the chronological metric list,
and stamps `pck.time_delivery = cur_step`.  The drone's buffer itself is not
touched. -/
def Depot.transfer_notified_packets (dep : Depot) (sim : SimParams)
    (current_drone : Drone) (cur_step : Int) : TransferResult :=
  let packets_to_offload := current_drone.buffer
  let stamped := packets_to_offload.map (fun p => { p with time_delivery := some cur_step })
  let fbs :=
    if !(feedbackExempt sim.routing_algorithm_name) then
      packets_to_offload.flatMap (fun p => sim.drones.map (fun dr =>
        Feedback.mk dr current_drone.identifier p.event_ref.identifier
          (cur_step - p.event_ref.current_time) 1 100))
    else []
  TransferResult.mk
    (Depot.mk dep.identifier dep.coords dep.communication_range (dep.buffer ++ stamped))
    stamped
    (stamped.map (fun p => (p, cur_step)))
    fbs

/-- Outcome of one movement interpolation step (`__move_to_mission` /
`__move_to_depot`): snapping to the target, moving to the interpolated point,
the `exit(1)` abort on a non-positive ratio, or (depot only) clearing
`move_routing` when already at the depot. -/
inductive MoveOutcome where
  | arrive : MoveOutcome
  | interp : ℚ → MoveOutcome
  | abort : MoveOutcome
  | stop : MoveOutcome
deriving DecidableEq

/-- `Drone.__move_to_mission(time)` branch structure: `distance = time * speed`;
when `all_distance == 0 or distance == 0` the drone snaps to the target
(`__update_position(p1)`); otherwise `t = distance / all_distance` arrives when
`t >= 1`, aborts the run (`exit(1)`) when `t <= 0`, and interpolates otherwise. -/
def move_to_mission_outcome (time speed all_distance : ℚ) : MoveOutcome :=
  if all_distance = 0 ∨ time * speed = 0 then MoveOutcome.arrive
  else
    let t := time * speed / all_distance
    if 1 ≤ t then MoveOutcome.arrive
    else if t ≤ 0 then MoveOutcome.abort
    else MoveOutcome.interp t

/-- `Drone.__move_to_depot(time)` branch structure: only `all_distance == 0` is
guarded (clearing `move_routing`); `distance == 0` is not, so `t = 0` falls
through to the `t <= 0` abort branch. -/
def move_to_depot_outcome (time speed all_distance : ℚ) : MoveOutcome :=
  if all_distance = 0 then MoveOutcome.stop
  else
    let t := time * speed / all_distance
    if 1 ≤ t then MoveOutcome.arrive
    else if t ≤ 0 then MoveOutcome.abort
    else MoveOutcome.interp t

/-- Sample simulation parameters with an adaptive (non-exempt) algorithm name. -/
def simQL : SimParams :=
  SimParams.mk 50 1 "QL" [0, 1]

/-- Sample simulation parameters whose algorithm name is none of "GEO", "RND",
"GEOS" but is a substring of their concatenation. -/
def simNDG : SimParams :=
  SimParams.mk 50 1 "NDG" [0, 1]

/-- A sample packet around an event with the given identifiers and deadline. -/
def pkSample (pid eid : Nat) (dl : Int) : Packet :=
  Packet.init pid 0 (Event.mk eid (0, 0) 0 dl)

/-- A sample drone holding the given buffer, currently diverting to the depot. -/
def droneSample (buf : List Packet) : Drone :=
  Drone.mk 0 (0, 0) 1 8 100 100 0 0 0 none buf 0 true false

/-- A sample depot with an empty log. -/
def depotSample : Depot :=
  Depot.mk 9 (0, 0) 200 []

/-- A sample drone at depot-travel time 5 whose tightest deadline is 10. -/
def droneExpiring : Drone :=
  Drone.mk 0 (0, 0) 1 8 100 100 0 0 0 (some 10) [] 5 false false

/-- A sample on-mission drone whose buffer length (1) already exceeds its
`buffer_max_size` of 0. -/
def droneOverfull : Drone :=
  Drone.mk 0 (0, 0) 1 0 100 100 0 0 0 none [pkSample 3 2 5] 0 false false

/-- Claim C1 (counterexample): two Events that `__eq__`-compare equal (same
identifier 7) but sit at different coords have different base-class hash keys
(`hash((identifier, coords))`), refuting "any two entities with the same
identifier have the same hash regardless of their current coords". -/
theorem C1_hash_counterexample :
    Event.py_eq (Event.mk 7 (0, 0) 0 10) (Event.mk 7 (1, 1) 0 10) = true ∧
    Event.py_hash_key (Event.mk 7 (0, 0) 0 10) ≠ Event.py_hash_key (Event.mk 7 (1, 1) 0 10) := by
  refine ⟨rfl, ?_⟩
  intro h
  have h2 : ((0 : ℚ), (0 : ℚ)) = ((1 : ℚ), (1 : ℚ)) := congrArg Prod.snd h
  have h3 : (0 : ℚ) = 1 := congrArg Prod.fst h2
  norm_num at h3

/-- Claim C1 (amended): equality is identifier-only for Event, Packet, Depot and
Drone, and the Drone hash key is the identifier alone; but the base Entity hash
key inherited by Event, Packet and Depot is the pair `(identifier, coords)`, so
two such entities hash alike iff both identifier and coords coincide. -/
theorem C1_identifier_identity :
    (∀ a b : Event, Event.py_eq a b = true ↔ b.identifier = a.identifier) ∧
    (∀ a b : Packet, Packet.py_eq a b = true ↔ b.identifier = a.identifier) ∧
    (∀ a b : Depot, Depot.py_eq a b = true ↔ b.identifier = a.identifier) ∧
    (∀ a b : Drone, Drone.py_eq a b = true ↔ b.identifier = a.identifier) ∧
    (∀ d : Drone, Drone.py_hash_key d = d.identifier) ∧
    (∀ a b : Event, Event.py_hash_key a = Event.py_hash_key b ↔
        a.identifier = b.identifier ∧ a.coords = b.coords) ∧
    (∀ a b : Depot, Depot.py_hash_key a = Depot.py_hash_key b ↔
        a.identifier = b.identifier ∧ a.coords = b.coords) := by
  refine ⟨?_, ?_, ?_, ?_, ?_, ?_, ?_⟩
  · intro a b; simp [Event.py_eq]
  · intro a b; simp [Packet.py_eq]
  · intro a b; simp [Depot.py_eq]
  · intro a b; simp [Drone.py_eq]
  · intro d; rfl
  · intro a b; simp [Event.py_hash_key, Prod.ext_iff]
  · intro a b; simp [Depot.py_hash_key, Prod.ext_iff]

theorem scan_foldl (sim : SimParams) (sid : Nat) (step : Int) (l : List Packet) (st : ScanSt) :
    l.foldl (update_step sim sid step) st =
      ScanSt.mk
        (st.tmp_buffer ++ l.filter (fun p => !(p.is_expired step)))
        (((l.filter (fun p => !(p.is_expired step))).map
            (fun p => p.event_ref.deadline)).foldl nanmin st.tightest)
        (st.feedbacks ++ (if feedbackExempt sim.routing_algorithm_name then [] else
          (l.filter (fun p => p.is_expired step)).flatMap (expired_feedbacks sim sid))) := by
  induction l generalizing st with
  | nil => cases st; simp
  | cons p l ih =>
    by_cases hexp : p.is_expired step
    · by_cases hex : feedbackExempt sim.routing_algorithm_name
      · simp [update_step, hexp, hex, ih]
      · simp [update_step, hexp, hex, ih]
    · simp [update_step, hexp, ih]

theorem foldl_nanmin_some (l : List Int) (a : Int) :
    l.foldl nanmin (some a) = some (l.foldl min a) := by
  induction l generalizing a with
  | nil => rfl
  | cons b l ih => simp [nanmin, ih]

theorem foldl_nanmin_none (l : List Int) : l.foldl nanmin none = l.min? := by
  cases l with
  | nil => rfl
  | cons a l => simp [List.min?, nanmin, foldl_nanmin_some]

theorem add_hop_ttl (p : Packet) (a : Nat) : (p.add_hop a).ttl = p.ttl + 1 := rfl

theorem add_hops_ttl (hs : List Nat) (p : Packet) :
    (p.add_hops hs).ttl = p.ttl + hs.length := by
  induction hs generalizing p with
  | nil => simp [Packet.add_hops]
  | cons a hs ih =>
    simp only [Packet.add_hops, List.foldl_cons] at *
    rw [ih (p.add_hop a), add_hop_ttl]
    simp only [List.length_cons]
    push_cast
    ring

theorem add_hop_hops_len (p : Packet) (a : Nat) (h : p.last_2_hops.length ≤ 2) :
    (p.add_hop a).last_2_hops.length = min 2 (p.last_2_hops.length + 1) := by
  simp only [Packet.add_hop, Packet.increase_TTL_hops]
  by_cases h2 : p.last_2_hops.length = 2
  · simp [h2]
  · have : p.last_2_hops.length ≤ 1 := by omega
    simp only [Nat.beq_eq_true_eq]
    rw [if_neg h2]
    simp only [List.length_append, List.length_singleton]
    omega

theorem suffix_append_same {α : Type} {l m : List α} (h : l <:+ m) (k : List α) :
    l ++ k <:+ m ++ k := by
  obtain ⟨t, rfl⟩ := h
  exact ⟨t, by simp⟩

theorem add_hop_hops_suffix (p : Packet) (a : Nat) :
    (p.add_hop a).last_2_hops <:+ p.last_2_hops ++ [a] := by
  simp only [Packet.add_hop, Packet.increase_TTL_hops]
  by_cases h2 : p.last_2_hops.length == 2
  · simp only [h2, if_true]
    obtain ⟨t, ht⟩ : p.last_2_hops.drop 1 <:+ p.last_2_hops := List.drop_suffix 1 _
    exact ⟨t, by rw [← List.append_assoc, ht]⟩
  · simp [h2]

theorem add_hops_spec (hs : List Nat) (p : Packet) (h : p.last_2_hops.length ≤ 2) :
    (p.add_hops hs).last_2_hops.length = min 2 (p.last_2_hops.length + hs.length) ∧
    (p.add_hops hs).last_2_hops <:+ p.last_2_hops ++ hs := by
  induction hs generalizing p with
  | nil =>
    simp only [Packet.add_hops, List.foldl_nil, List.length_nil, Nat.add_zero, List.append_nil]
    exact ⟨by omega, List.suffix_refl _⟩
  | cons a hs ih =>
    simp only [Packet.add_hops, List.foldl_cons] at *
    have hlen := add_hop_hops_len p a h
    have hle : (p.add_hop a).last_2_hops.length ≤ 2 := by omega
    obtain ⟨ihlen, ihsuf⟩ := ih (p.add_hop a) hle
    constructor
    · rw [ihlen, hlen]
      simp only [List.length_cons]
      omega
    · have h1 : (p.add_hop a).last_2_hops ++ hs <:+ (p.last_2_hops ++ [a]) ++ hs :=
        suffix_append_same (add_hop_hops_suffix p a) hs
      have h2 := ihsuf.trans h1
      simpa using h2

/-- Claim C5: starting from a freshly constructed packet, after `n` calls to
`add_hop` the TTL equals `n - 1` (it starts at `-1` and each hop adds one); a
packet built via `Event.as_packet` has TTL `0`; and `last_2_hops` always holds
exactly the `min 2 n` most recent hops (a suffix of the hop sequence). -/
theorem C5_ttl_and_hop_window :
    (∀ (pid : Nat) (t : Int) (e : Event) (hs : List Nat),
        ((Packet.init pid t e).add_hops hs).ttl = (hs.length : Int) - 1) ∧
    (∀ (e : Event) (t : Int) (pid drone_id : Nat),
        (e.as_packet t pid drone_id).ttl = 0) ∧
    (∀ (pid : Nat) (t : Int) (e : Event) (hs : List Nat),
        ((Packet.init pid t e).add_hops hs).last_2_hops.length = min 2 hs.length ∧
        ((Packet.init pid t e).add_hops hs).last_2_hops <:+ hs) := by
  refine ⟨?_, ?_, ?_⟩
  · intro pid t e hs
    rw [add_hops_ttl]
    simp [Packet.init]
    ring
  · intro e t pid drone_id
    rfl
  · intro pid t e hs
    have h := add_hops_spec hs (Packet.init pid t e) (by simp [Packet.init])
    simpa [Packet.init] using h

/-- Claim C2 (counterexample): with `step = 5` and a single packet whose event
deadline is `5`, the deadline satisfies `deadline < step + 1`, yet
`update_packets(5)` keeps the packet (the code removes only `deadline < step`),
refuting "removes exactly the packets whose event deadline is < step+1". -/
theorem C2_deadline_off_by_one_counterexample :
    ((pkSample 3 2 5).event_ref.deadline < 5 + 1) ∧
    ((droneSample [pkSample 3 2 5]).update_packets simQL 5).1.buffer = [pkSample 3 2 5] := by
  constructor
  · decide
  · decide

/-- Claim C2 (amended): `update_packets(step)` removes exactly the packets whose
event deadline is `< step` (those with `is_expired(step)` true), keeps the
others in order, sets `tightest_event_deadline` to the minimum deadline among
retained packets (the NaN sentinel `none` when none are retained), and clears
`move_routing` exactly when the resulting buffer is empty. -/
theorem C2_update_packets_spec (d : Drone) (sim : SimParams) (cur_step : Int) :
    ((d.update_packets sim cur_step).1.buffer
        = d.buffer.filter (fun p => !(p.is_expired cur_step))) ∧
    (∀ p : Packet, p.is_expired cur_step = decide (p.event_ref.deadline < cur_step)) ∧
    ((d.update_packets sim cur_step).1.tightest_event_deadline
        = ((d.buffer.filter (fun p => !(p.is_expired cur_step))).map
            (fun p => p.event_ref.deadline)).min?) ∧
    ((d.update_packets sim cur_step).1.move_routing
        = if (d.update_packets sim cur_step).1.buffer = [] then false else d.move_routing) := by
  have hscan := scan_foldl sim d.identifier cur_step d.buffer (ScanSt.mk [] none [])
  refine ⟨?_, fun p => rfl, ?_, ?_⟩
  · by_cases hF : (d.buffer.filter (fun p => !(p.is_expired cur_step))).length = 0
    · simp [Drone.update_packets, hscan, Drone.buffer_length, hF]
    · simp [Drone.update_packets, hscan, Drone.buffer_length, hF]
  · by_cases hF : (d.buffer.filter (fun p => !(p.is_expired cur_step))).length = 0
    · simp [Drone.update_packets, hscan, Drone.buffer_length, hF, foldl_nanmin_none]
    · simp [Drone.update_packets, hscan, Drone.buffer_length, hF, foldl_nanmin_none]
  · by_cases hF : (d.buffer.filter (fun p => !(p.is_expired cur_step))) = []
    · simp [Drone.update_packets, hscan, Drone.buffer_length, hF]
    · have hlen : (d.buffer.filter (fun p => !(p.is_expired cur_step))).length ≠ 0 := by
        simpa [List.length_eq_zero] using hF
      simp [Drone.update_packets, hscan, Drone.buffer_length, hF, hlen]

/-- Claim C3 (code evidence): the broadcast guard tests the algorithm name by
substring against the parse-time concatenation "GEORNDGEOS" ("GEO" "RND" "GEOS"
with no commas), so the three intended names are exempted, but so is "NDG",
which equals none of them: with one expired packet, update_packets under "NDG"
issues no feedback at all, while an adaptive name such as "QL" broadcasts
(outcome -1, reward -100, delay = event_duration) to every drone; likewise the
depot's positive broadcast (outcome 1, reward 100, delay = step - current_time)
is skipped under "NDG" and performed under "QL". -/
theorem C3_feedback_guard_is_substring_test :
    (feedbackExempt "GEO" = true ∧ feedbackExempt "RND" = true ∧ feedbackExempt "GEOS" = true) ∧
    ("NDG" ≠ "GEO" ∧ "NDG" ≠ "RND" ∧ "NDG" ≠ "GEOS") ∧
    feedbackExempt "NDG" = true ∧
    ((droneSample [pkSample 3 2 5]).update_packets simNDG 6).2 = [] ∧
    ((droneSample [pkSample 3 2 5]).update_packets simQL 6).2 =
      [Feedback.mk 0 0 2 50 (-1) (-100), Feedback.mk 1 0 2 50 (-1) (-100)] ∧
    (depotSample.transfer_notified_packets simNDG (droneSample [pkSample 3 2 5]) 6).feedbacks
      = [] ∧
    (depotSample.transfer_notified_packets simQL (droneSample [pkSample 3 2 5]) 6).feedbacks
      = [Feedback.mk 0 0 2 6 1 100, Feedback.mk 1 0 2 6 1 100] := by
  decide

theorem accept_one_nodup (d : Drone) (p : Packet)
    (h : (d.buffer.map (fun q => q.event_ref.identifier)).Nodup) :
    (((if !(d.is_known_packet p) then { d with buffer := d.buffer ++ [p] } else d)).buffer.map
        (fun q => q.event_ref.identifier)).Nodup := by
  by_cases hk : d.is_known_packet p
  · simpa [hk] using h
  · have hnot : p.event_ref.identifier ∉ d.buffer.map (fun q => q.event_ref.identifier) := by
      simp only [Drone.is_known_packet, List.any_eq_true, Event.py_eq,
        Bool.not_eq_true, beq_iff_eq] at hk
      simp only [List.mem_map, not_exists]
      intro q
      intro hcontra
      obtain ⟨hq, hid⟩ := hcontra
      exact hk ⟨q, hq, hid.symm⟩
    simp [hk, List.nodup_append, h, hnot]

/-- Claim C4: accept_packets preserves the invariant that no two buffer entries
refer to `__eq__`-equal events (dedup is by event identifier, not packet
identity), and accepting a packet whose event is already represented leaves the
buffer length unchanged. -/
theorem C4_accept_packets_dedup :
    (∀ (d : Drone) (ps : List Packet),
        (d.buffer.map (fun p => p.event_ref.identifier)).Nodup →
        ((d.accept_packets ps).buffer.map (fun p => p.event_ref.identifier)).Nodup) ∧
    (∀ (d : Drone) (p : Packet), d.is_known_packet p = true →
        (d.accept_packets [p]).buffer.length = d.buffer.length) := by
  constructor
  · intro d ps
    induction ps generalizing d with
    | nil => intro h; simpa [Drone.accept_packets] using h
    | cons p ps ih =>
      intro h
      simp only [Drone.accept_packets, List.foldl_cons] at *
      exact ih _ (accept_one_nodup d p h)
  · intro d p h
    simp [Drone.accept_packets, h]

/-- Claim C4 (witness): a concrete drone already holding a packet for event 2
rejects a second, physically distinct packet for the same event. -/
theorem C4_accept_packets_dedup_witness :
    (((droneSample [pkSample 3 2 5]).accept_packets [pkSample 4 2 9]).buffer.map
        (fun p => p.event_ref.identifier)).Nodup ∧
    ((droneSample [pkSample 3 2 5]).accept_packets [pkSample 4 2 9]).buffer.length
        = (droneSample [pkSample 3 2 5]).buffer.length :=
  ⟨C4_accept_packets_dedup.1 (droneSample [pkSample 3 2 5]) [pkSample 4 2 9] (by decide),
   C4_accept_packets_dedup.2 (droneSample [pkSample 3 2 5]) (pkSample 4 2 9) (by decide)⟩

/-- Claim C6 (counterexample): with distance 5, speed 1, tightest deadline 10,
step 0 and tick duration 1, the travel time to the depot equals
`deadline_time_remaining - 5`, the left end of the claimed closed interval, yet
`packet_is_expiring` is false: the code's window is open at the left end
(`event_time_to_dead - 5 < time_to_depot`). -/
theorem C6_closed_interval_counterexample :
    droneExpiring.packet_is_expiring simQL 0 = false ∧
    droneExpiring.distance_from_depot / droneExpiring.speed
      = (((10 : Int) : ℚ) - ((0 : Int) : ℚ)) * simQL.time_step_duration - 5 ∧
    (((10 : Int) : ℚ) - ((0 : Int) : ℚ)) * simQL.time_step_duration - 5
      ≤ droneExpiring.distance_from_depot / droneExpiring.speed ∧
    droneExpiring.distance_from_depot / droneExpiring.speed
      ≤ (((10 : Int) : ℚ) - ((0 : Int) : ℚ)) * simQL.time_step_duration := by
  refine ⟨?_, ?_, ?_, ?_⟩
  · norm_num [Drone.packet_is_expiring, droneExpiring, simQL]
  · norm_num [droneExpiring, simQL]
  · norm_num [droneExpiring, simQL]
  · norm_num [droneExpiring, simQL]

/-- Claim C6 (amended): for a drone with positive speed and a numeric tightest
deadline, `packet_is_expiring(step)` is true exactly when the travel time
`distance_from_depot / speed` lies in the half-open interval
`(deadline_time_remaining - 5, deadline_time_remaining]`, where
`deadline_time_remaining = (tightest_event_deadline - step) * time_step_duration`. -/
theorem C6_expiring_window (d : Drone) (sim : SimParams) (cur_step tight : Int)
    (htight : d.tightest_event_deadline = some tight) (_hspeed : 0 < d.speed) :
    (d.packet_is_expiring sim cur_step = true ↔
      (((tight : ℚ) - (cur_step : ℚ)) * sim.time_step_duration - 5
          < d.distance_from_depot / d.speed ∧
        d.distance_from_depot / d.speed
          ≤ ((tight : ℚ) - (cur_step : ℚ)) * sim.time_step_duration)) := by
  simp [Drone.packet_is_expiring, htight]

/-- Claim C6 (witness): the amended window theorem applied to a concrete drone
(distance 5, speed 1, tightest deadline 10) at step 4. -/
theorem C6_expiring_window_witness :
    droneExpiring.tightest_event_deadline = some 10 ∧ (0 : ℚ) < droneExpiring.speed ∧
    (droneExpiring.packet_is_expiring simQL 4 = true ↔
      ((((10 : Int) : ℚ) - ((4 : Int) : ℚ)) * simQL.time_step_duration - 5
          < droneExpiring.distance_from_depot / droneExpiring.speed ∧
        droneExpiring.distance_from_depot / droneExpiring.speed
          ≤ (((10 : Int) : ℚ) - ((4 : Int) : ℚ)) * simQL.time_step_duration)) :=
  ⟨rfl, by norm_num [droneExpiring],
   C6_expiring_window droneExpiring simQL 4 10 rfl (by norm_num [droneExpiring])⟩

/-- Claim C7: `transfer_notified_packets` appends every packet of the drone's
buffer to the depot's permanent log (duplicates kept across repeated offloads),
stamps each offloaded packet's `time_delivery` with the step, appends exactly
one chronological-list entry per packet, and leaves the source drone's buffer
unchanged as a sequence of packets (same identifiers in the same order; the
only in-place change to the packets themselves is the delivery stamp). -/
theorem C7_transfer_spec (dep : Depot) (sim : SimParams) (d : Drone) (step : Int) :
    ((dep.transfer_notified_packets sim d step).depot.buffer
        = dep.buffer ++ (dep.transfer_notified_packets sim d step).drone_buffer) ∧
    ((dep.transfer_notified_packets sim d step).drone_buffer
        = d.buffer.map (fun p => { p with time_delivery := some step })) ∧
    ((dep.transfer_notified_packets sim d step).drone_buffer.map (fun p => p.identifier)
        = d.buffer.map (fun p => p.identifier)) ∧
    ((dep.transfer_notified_packets sim d step).delivered_entries.length = d.buffer.length) ∧
    ((dep.transfer_notified_packets sim d step).delivered_entries
        = (dep.transfer_notified_packets sim d step).drone_buffer.map (fun p => (p, step))) := by
  refine ⟨rfl, rfl, ?_, ?_, rfl⟩
  · simp [Depot.transfer_notified_packets, List.map_map, Function.comp]
  · simp [Depot.transfer_notified_packets]

/-- Claim C8: neither `feel_event` nor `accept_packets` checks `buffer_max_size`:
a drone on mission always appends the sensed packet and an unknown-event packet
is always appended, for every drone state, including one whose buffer length
already reaches or exceeds `buffer_max_size`; `is_full` merely compares the
buffer length with `buffer_max_size` for equality. -/
theorem C8_capacity_not_enforced :
    (∀ (d : Drone) (cur_step : Int) (sim : SimParams) (ev_id pk_id : Nat),
        d.move_routing = false → d.come_back_to_mission = false →
        (d.feel_event cur_step sim ev_id pk_id).1.buffer.length = d.buffer.length + 1) ∧
    (∀ (d : Drone) (p : Packet), d.is_known_packet p = false →
        (d.accept_packets [p]).buffer.length = d.buffer.length + 1) ∧
    (∀ d : Drone, d.is_full = (d.buffer.length == d.buffer_max_size)) := by
  refine ⟨?_, ?_, fun d => rfl⟩
  · intro d cur_step sim ev_id pk_id h1 h2
    simp [Drone.feel_event, h1, h2]
  · intro d p h
    simp [Drone.accept_packets, h]

/-- Claim C8 (witness): a drone whose buffer length already exceeds its
`buffer_max_size` of 0 still accepts one more packet through both paths. -/
theorem C8_capacity_not_enforced_witness :
    (droneOverfull.feel_event 0 simQL 11 12).1.buffer.length
        = droneOverfull.buffer.length + 1 ∧
    (droneOverfull.accept_packets [pkSample 4 7 9]).buffer.length
        = droneOverfull.buffer.length + 1 ∧
    droneOverfull.buffer_max_size ≤ droneOverfull.buffer.length :=
  ⟨C8_capacity_not_enforced.1 droneOverfull 0 simQL 11 12 rfl rfl,
   C8_capacity_not_enforced.2.1 droneOverfull (pkSample 4 7 9) (by decide),
   by decide⟩

/-- Claim C9 (counterexample): in `__move_to_depot` the non-negative
configuration time 1, speed 0, distance 5 gives interpolation fraction 0 and
the run aborts: the abort branch is reachable there, because unlike
`__move_to_mission` the depot path has no `distance == 0` guard before the
`t <= 0` test. -/
theorem C9_abort_reachable_counterexample :
    move_to_depot_outcome 1 0 5 = MoveOutcome.abort := by
  norm_num [move_to_depot_outcome]

/-- Claim C9 (amended): with non-negative tick duration and speed and positive
distance the interpolation fraction `time * speed / distance` is never
negative; the abort branch of `__move_to_mission` is unreachable, and that of
`__move_to_depot` is unreachable provided additionally `time * speed > 0` (at
`time * speed = 0` the depot path does abort, as the counterexample shows). -/
theorem C9_no_negative_fraction (time speed all_distance : ℚ)
    (ht : 0 ≤ time) (hs : 0 ≤ speed) (hd : 0 < all_distance) :
    0 ≤ time * speed / all_distance ∧
    move_to_mission_outcome time speed all_distance ≠ MoveOutcome.abort ∧
    (0 < time * speed → move_to_depot_outcome time speed all_distance ≠ MoveOutcome.abort) := by
  have hts : 0 ≤ time * speed := mul_nonneg ht hs
  have hfrac : 0 ≤ time * speed / all_distance := div_nonneg hts hd.le
  refine ⟨hfrac, ?_, ?_⟩
  · unfold move_to_mission_outcome
    by_cases hz : all_distance = 0 ∨ time * speed = 0
    · rw [if_pos hz]
      simp
    · have h0 : ¬ (time * speed = 0) := fun h => hz (Or.inr h)
      have hpos : 0 < time * speed := lt_of_le_of_ne hts (fun h => h0 h.symm)
      have htpos : 0 < time * speed / all_distance := div_pos hpos hd
      rw [if_neg hz]
      by_cases h1 : 1 ≤ time * speed / all_distance
      · simp [h1]
      · have hle : ¬ (time * speed / all_distance ≤ 0) := not_le.mpr htpos
        simp [h1, hle]
  · intro hpos
    have htpos : 0 < time * speed / all_distance := div_pos hpos hd
    unfold move_to_depot_outcome
    rw [if_neg hd.ne']
    by_cases h1 : 1 ≤ time * speed / all_distance
    · simp [h1]
    · have hle : ¬ (time * speed / all_distance ≤ 0) := not_le.mpr htpos
      simp [h1, hle]

/-- Claim C9 (witness): the amended statement applied at time 2, speed 3,
distance 4. -/
theorem C9_no_negative_fraction_witness :
    0 ≤ (2 : ℚ) * 3 / 4 ∧
    move_to_mission_outcome 2 3 4 ≠ MoveOutcome.abort ∧
    (0 < (2 : ℚ) * 3 → move_to_depot_outcome 2 3 4 ≠ MoveOutcome.abort) :=
  C9_no_negative_fraction 2 3 4 (by norm_num) (by norm_num) (by norm_num)

theorem decrease_energy_ledger (d : Drone) (a : String) (h : energy_ledger_ok d) :
    energy_ledger_ok (d.decrease_energy a) := by
  unfold energy_ledger_ok at *
  by_cases h1 : a = "transmission"
  · simp [Drone.decrease_energy, h1]
    linarith
  · by_cases h2 : a = "move"
    · simp [Drone.decrease_energy, h1, h2]
      linarith
    · by_cases h3 : a = "hello"
      · simp [Drone.decrease_energy, h1, h2, h3]
        linarith
      · simpa [Drone.decrease_energy, h1, h2, h3] using h

/-- Claim C10: `decrease_energy` with action "transmission", "move" or "hello"
moves exactly 100, speed*100 or 10 from `residual_energy` into the matching
accumulator and leaves the other accumulators alone; any other action string
changes nothing; consequently the ledger identity
`initial_energy - residual_energy = send + moving + hello` is preserved by
every sequence of calls. -/
theorem C10_energy_ledger :
    (∀ d : Drone,
        (d.decrease_energy "transmission").residual_energy = d.residual_energy - 100 ∧
        (d.decrease_energy "transmission").accumulated_send_energy
            = d.accumulated_send_energy + 100 ∧
        (d.decrease_energy "transmission").accumulated_moving_energy
            = d.accumulated_moving_energy ∧
        (d.decrease_energy "transmission").accumulated_hello_energy
            = d.accumulated_hello_energy) ∧
    (∀ d : Drone,
        (d.decrease_energy "move").residual_energy = d.residual_energy - d.speed * 100 ∧
        (d.decrease_energy "move").accumulated_moving_energy
            = d.accumulated_moving_energy + d.speed * 100 ∧
        (d.decrease_energy "move").accumulated_send_energy = d.accumulated_send_energy ∧
        (d.decrease_energy "move").accumulated_hello_energy = d.accumulated_hello_energy) ∧
    (∀ d : Drone,
        (d.decrease_energy "hello").residual_energy = d.residual_energy - 10 ∧
        (d.decrease_energy "hello").accumulated_hello_energy
            = d.accumulated_hello_energy + 10 ∧
        (d.decrease_energy "hello").accumulated_send_energy = d.accumulated_send_energy ∧
        (d.decrease_energy "hello").accumulated_moving_energy = d.accumulated_moving_energy) ∧
    (∀ (d : Drone) (action : String),
        action ≠ "transmission" → action ≠ "move" → action ≠ "hello" →
        d.decrease_energy action = d) ∧
    (∀ (d : Drone) (actions : List String),
        energy_ledger_ok d → energy_ledger_ok (actions.foldl Drone.decrease_energy d)) := by
  refine ⟨?_, ?_, ?_, ?_, ?_⟩
  · intro d
    refine ⟨?_, ?_, ?_, ?_⟩ <;> simp [Drone.decrease_energy]
  · intro d
    refine ⟨?_, ?_, ?_, ?_⟩ <;> simp [Drone.decrease_energy]
  · intro d
    refine ⟨?_, ?_, ?_, ?_⟩ <;> simp [Drone.decrease_energy]
  · intro d action h1 h2 h3
    simp [Drone.decrease_energy, h1, h2, h3]
  · intro d actions
    induction actions generalizing d with
    | nil => intro h; simpa using h
    | cons a actions ih =>
      intro h
      simp only [List.foldl_cons]
      exact ih _ (decrease_energy_ledger d a h)

/-- Claim C10 (witness): the ledger invariant survives a concrete action
sequence including an unrecognised action string, starting from a fresh drone. -/
theorem C10_energy_ledger_witness :
    (droneSample []).decrease_energy "noop" = droneSample [] ∧
    energy_ledger_ok
      (["move", "transmission", "hello", "noop"].foldl Drone.decrease_energy (droneSample [])) :=
  ⟨C10_energy_ledger.2.2.2.1 (droneSample []) "noop" (by decide) (by decide) (by decide),
   C10_energy_ledger.2.2.2.2 (droneSample []) ["move", "transmission", "hello", "noop"]
     (by norm_num [energy_ledger_ok, droneSample])⟩
